import Mathlib

/-!
Shallow embedding of `src/index.ts` (safinsingh/store): a password-based
credential-exchange provider for the Riot auth API plus a storefront
retrieval component.  HTTP transport is modelled by a `HandshakeWorld`
record carrying the response data of each network call; wall-clock reads
(`new Date()`) are explicit `Time` parameters, one per textual occurrence
of `new Date()` in the source; JavaScript `Date` values are modelled as
milliseconds on a linear clock (so `setMinutes(getMinutes()+55)` is
`+ 55*60*1000` and `setSeconds(getSeconds()+s)` is `+ s*1000`).
Fields that may be `undefined` at runtime are `Option`s; a thrown
exception is an `Except.error`.
-/

/-- Milliseconds since epoch, standing in for a JavaScript `Date`. -/
abbrev Time := Nat

/-- JavaScript truthiness of a `string | undefined | null` value:
`undefined`, `null` and `""` are falsy, every other string is truthy. -/
def jsTruthy : Option String → Bool
  | none => false
  | some s => !(s == "")

/-- JavaScript `<` applied to `this.expiry < new Date()` where `this.expiry`
may be `undefined`: relational comparison with `undefined` coerces to `NaN`
and yields `false`; two dates compare by their millisecond values. -/
def jsDateLt : Option Time → Time → Bool
  | none, _ => false
  | some a, b => a < b

/-- Split a character list at every occurrence of `c` (kept executable by
structural recursion; `splitOnChar c s.data` agrees with JavaScript
`s.split(c)`). -/
def splitOnChar (c : Char) : List Char → List (List Char)
  | [] => [[]]
  | x :: xs =>
    let r := splitOnChar c xs
    if x = c then [] :: r
    else
      match r with
      | [] => [[x]]
      | y :: ys => (x :: y) :: ys

/-- Join character lists with the separator `c` (`Array.join` on the
pieces produced by `splitOnChar`). -/
def intercalateChar (c : Char) : List (List Char) → List Char
  | [] => []
  | [x] => x
  | x :: y :: ys => x ++ c :: intercalateChar c (y :: ys)

/-- JavaScript `String.prototype.startsWith` on character lists (second
argument is the prefix searched for). -/
def startsWithChars : List Char → List Char → Bool
  | _, [] => true
  | [], _ :: _ => false
  | x :: xs, y :: ys => x = y && startsWithChars xs ys

/-- Fragment of a URL (the part after the first `#`, without the `#`),
composing the source's `new URL(uri).hash.substring(1)`.  `URL.hash` is
`""` when there is no (or an empty) fragment, and `substring(1)` of `""`
is `""`, which this single definition reproduces. -/
def urlFragment (uri : String) : String :=
  match splitOnChar '#' uri.data with
  | [] => ""
  | [_] => ""
  | _ :: rest => ⟨intercalateChar '#' rest⟩

/-- Model of `new URLSearchParams(s).get(k)`: split on `&`, each pair at
its first `=` (a missing `=` means value `""`), return the first value
whose key is `k`, or `null` (`none`). Percent-decoding is omitted; the
tokens involved contain no escapes. -/
def urlSearchParamsGet (s k : String) : Option String :=
  ((splitOnChar '&' s.data).filterMap fun pair =>
    match splitOnChar '=' pair with
    | [] => none
    | key :: rest =>
      if key = k.data then some (⟨intercalateChar '=' rest⟩ : String) else none).head?

/-- TLS cipher allow-list `RIOT_TLS_CIPHERS` from the source. -/
def RIOT_TLS_CIPHERS : List String :=
  [ "TLS_CHACHA20_POLY1305_SHA256"
  , "TLS_AES_128_GCM_SHA256"
  , "TLS_AES_256_GCM_SHA384"
  , "TLS_ECDHE_ECDSA_WITH_CHACHA20_POLY1305_SHA256" ]

/-- Authorization endpoint constant from the source. -/
def RIOT_AUTHORIZATION_ENDPOINT : String :=
  "https://auth.riotgames.com/api/v1/authorization"

/-- Entitlements endpoint constant from the source. -/
def RIOT_ENTITLEMENTS_ENDPOINT : String :=
  "https://entitlements.auth.riotgames.com/api/token/v1"

/-- Storefront endpoint template from the source. -/
def RIOT_STOREFRONT_ENDPOINT (puuid : String) : String :=
  "https://pd.na.a.pvp.net/store/v2/storefront/" ++ puuid

/-- The `RiotAuthBundle` record type (`riotToken`, `entitlementsToken`,
`puuid`, `expiry`). -/
structure RiotAuthBundle where
  riotToken : String
  entitlementsToken : String
  puuid : String
  expiry : Time
deriving Repr, DecidableEq

/-- Error taxonomy of a call: `authProviderError` embeds the source's
`AuthProviderError` class (carrying its message); `typeError` is a plain
JavaScript `TypeError` escaping from an unguarded field access or an
invalid `new URL(...)`. -/
inductive AuthErr where
  | authProviderError (msg : String)
  | typeError (msg : String)
deriving Repr, DecidableEq

/-- Network requests issued during a handshake, in program order:
the bootstrap POST, the credential-submission PUT, the entitlements POST
and the userinfo GET. -/
inductive NetStep where
  | bootstrap
  | submitCreds
  | entitlements
  | userinfo
deriving Repr, DecidableEq

def msgCookie : String := "Failed to retrieve authorization cookies"
def msgBadCreds : String := "Authentication failed, check your credentials"
def msgTokenExtract : String :=
  "Error retrieving authentication token from authorization URI"
def msgEntitlements : String := "Failed to retrieve entitlement token"
def msgPuuid : String := "Failed to retrieve puuid"
def msgReadParameters : String :=
  "Cannot read properties of undefined (reading parameters)"
def msgReadUri : String := "Cannot read properties of undefined (reading uri)"
def msgInvalidURL : String := "Invalid URL"

/-- The `parameters` object of the credential-submission response;
its `uri` property may be absent. -/
structure AuthParameters where
  uri : Option String
deriving Repr, DecidableEq

/-- The `response` object of the credential-submission response body;
its `parameters` property may be absent. -/
structure AuthResponseField where
  parameters : Option AuthParameters
deriving Repr, DecidableEq

/-- Body (`data`) of the credential-submission PUT response: an optional
`error` indicator and an optional `response.parameters.uri` structure. -/
structure AuthBody where
  error : Option String
  response : Option AuthResponseField
deriving Repr, DecidableEq

/-- Responses the external service gives to the four handshake requests:
the `set-cookie` header list of the bootstrap POST (absent if the header
is missing), the credential-submission body, the `entitlements_token`
field of the entitlements response and the `sub` field of the userinfo
response. -/
structure HandshakeWorld where
  setCookie : Option (List String)
  authBody : AuthBody
  entitlementsToken : Option String
  sub : Option String
deriving Repr, DecidableEq

/-- Source line `res.headers["set-cookie"]?.find((cookie) => cookie.startsWith("asid"))`. -/
def findAsidCookie (cookies : Option (List String)) : Option String :=
  match cookies with
  | none => none
  | some cs => cs.find? (fun cookie => startsWithChars cookie.data "asid".data)

/-- Mutable state of a `PasswordAuthProvider` instance.  The class
declares a field `expiry: Date` that no statement ever assigns, so at
runtime it is `undefined` forever; it is modelled as an `Option Time`
that the constructor sets to `none`.  The HTTP client configuration is
transport plumbing and carries no state the methods read. -/
structure PasswordAuthProvider where
  username : String
  password : String
  expiry : Option Time
  bundle : Option RiotAuthBundle
deriving Repr, DecidableEq

/-- Constructor `new PasswordAuthProvider(username, password)`: both the
`expiry` field and the bundle cache start out `undefined`. -/
def mkPasswordAuthProvider (username password : String) : PasswordAuthProvider :=
  { username := username, password := password, expiry := none, bundle := none }

namespace PasswordAuthProvider

/-- Method `getRiotToken`: bootstrap POST, `asid` cookie check,
credential-submission PUT, error-field check, redirect-URI fragment
parsing and `access_token` extraction.  Returns the token or the thrown
error, together with the network requests issued. -/
def getRiotToken (w : HandshakeWorld) : Except AuthErr String × List NetStep :=
  match findAsidCookie w.setCookie with
  | none => (.error (.authProviderError msgCookie), [.bootstrap])
  | some _cookie =>
    if jsTruthy w.authBody.error then
      (.error (.authProviderError msgBadCreds), [.bootstrap, .submitCreds])
    else
      match w.authBody.response with
      | none => (.error (.typeError msgReadParameters), [.bootstrap, .submitCreds])
      | some resp =>
        match resp.parameters with
        | none => (.error (.typeError msgReadUri), [.bootstrap, .submitCreds])
        | some params =>
          match params.uri with
          | none => (.error (.typeError msgInvalidURL), [.bootstrap, .submitCreds])
          | some uri =>
            if jsTruthy (urlSearchParamsGet (urlFragment uri) "access_token") then
              (.ok ((urlSearchParamsGet (urlFragment uri) "access_token").getD ""),
                [.bootstrap, .submitCreds])
            else
              (.error (.authProviderError msgTokenExtract), [.bootstrap, .submitCreds])

/-- Method `getentitlementsToken`: POST to the entitlements endpoint,
falsy-check `data.entitlements_token`. -/
def getentitlementsToken (w : HandshakeWorld) : Except AuthErr String :=
  if jsTruthy w.entitlementsToken then .ok (w.entitlementsToken.getD "")
  else .error (.authProviderError msgEntitlements)

/-- Method `getPuuid`: GET the userinfo endpoint, falsy-check `data.sub`. -/
def getPuuid (w : HandshakeWorld) : Except AuthErr String :=
  if jsTruthy w.sub then .ok (w.sub.getD "")
  else .error (.authProviderError msgPuuid)

instance {ε α : Type} [DecidableEq ε] [DecidableEq α] : DecidableEq (Except ε α) := fun
  | .error e, .error f =>
    if h : e = f then .isTrue (by rw [h]) else .isFalse (by simp [h])
  | .error _, .ok _ => .isFalse (fun h => Except.noConfusion h)
  | .ok _, .error _ => .isFalse (fun h => Except.noConfusion h)
  | .ok a, .ok b =>
    if h : a = b then .isTrue (by rw [h]) else .isFalse (by simp [h])

/-- Outcome of one `getAuthBundle()` call: the returned bundle or thrown
error, the provider state after the call, and the network requests made. -/
structure CallResult where
  result : Except AuthErr RiotAuthBundle
  state : PasswordAuthProvider
  steps : List NetStep
deriving Repr, DecidableEq

/-- The handshake branch of `getAuthBundle` (the body of the `if`):
`getRiotToken`, `getentitlementsToken`, `getPuuid` in sequence, then
`expiry = new Date(); expiry.setMinutes(expiry.getMinutes() + 55)`
(the clock read is `now1`) and the cache assignment. -/
def runHandshake (st : PasswordAuthProvider) (w : HandshakeWorld) (now1 : Time) :
    CallResult :=
  match getRiotToken w with
  | (.error e, steps) => ⟨.error e, st, steps⟩
  | (.ok riotToken, steps) =>
    match getentitlementsToken w with
    | .error e => ⟨.error e, st, steps ++ [.entitlements]⟩
    | .ok entitlementsToken =>
      match getPuuid w with
      | .error e => ⟨.error e, st, steps ++ [.entitlements, .userinfo]⟩
      | .ok puuid =>
        let expiry := now1 + 55 * 60 * 1000
        let bundle : RiotAuthBundle :=
          { riotToken := riotToken, entitlementsToken := entitlementsToken
          , puuid := puuid, expiry := expiry }
        ⟨.ok bundle, { st with bundle := some bundle }, steps ++ [.entitlements, .userinfo]⟩

/-- Method `getAuthBundle`: `if (!this.bundle || this.expiry < new Date())`
run the handshake (`now0` is the clock read in the condition; by JS
short-circuiting it only happens when a bundle exists, but reading the
clock has no other effect), else return the cached bundle with no
network traffic. -/
def getAuthBundle (st : PasswordAuthProvider) (now0 : Time) (w : HandshakeWorld)
    (now1 : Time) : CallResult :=
  match st.bundle with
  | none => runHandshake st w now1
  | some b =>
    if jsDateLt st.expiry now0 then runHandshake st w now1
    else ⟨.ok b, st, []⟩

end PasswordAuthProvider

/-- States of a `PasswordAuthProvider` instance reachable from its
constructor by any sequence of `getAuthBundle()` calls, with arbitrary
clock values and network responses. -/
inductive Reachable : PasswordAuthProvider → Prop where
  | init (u p : String) : Reachable (mkPasswordAuthProvider u p)
  | step (st : PasswordAuthProvider) (now0 : Time) (w : HandshakeWorld) (now1 : Time) :
      Reachable st → Reachable (PasswordAuthProvider.getAuthBundle st now0 w now1).state

/-- Item reference inside a featured-bundle entry of the raw storefront
response (`Item` object).  JavaScript numbers are modelled as `Nat`;
none of these fields is read by the program. -/
structure RiotStorefrontItemRef where
  ItemTypeID : String
  ItemID : String
  Amount : Nat
deriving Repr, DecidableEq

/-- Entry of the featured bundle's `Items` array in the raw storefront
response. -/
structure RiotStorefrontBundleItem where
  Item : RiotStorefrontItemRef
  BasePrice : Nat
  CurrencyID : String
  DiscountPercent : Nat
  DiscountPrice : Nat
  IsPromoItem : Bool
deriving Repr, DecidableEq

/-- The `FeaturedBundle.Bundle` object of the raw storefront response. -/
structure RiotFeaturedBundleInner where
  ID : String
  DataAssetID : String
  CurrencyID : String
  Items : List RiotStorefrontBundleItem
  DurationRemainingInSeconds : Nat
  WholesaleOnly : Bool
deriving Repr, DecidableEq

/-- The `FeaturedBundle` object of the raw storefront response. -/
structure RiotFeaturedBundle where
  Bundle : RiotFeaturedBundleInner
  BundleRemainingDurationInSeconds : Nat
deriving Repr, DecidableEq

/-- The `SkinsPanelLayout` object: the fixed 4-tuple of offer identifiers
and the remaining-seconds counter of the single-item offer panel. -/
structure SkinsPanelLayout where
  SingleItemOffers : String × String × String × String
  SingleItemOffersRemainingDurationInSeconds : Nat
deriving Repr, DecidableEq

/-- The raw downstream storefront response (`RiotStorefrontResponse`). -/
structure RiotStorefrontResponse where
  FeaturedBundle : RiotFeaturedBundle
  SkinsPanelLayout : SkinsPanelLayout
deriving Repr, DecidableEq

/-- The `SkinTier` string-union type. -/
inductive SkinTier where
  | Select
  | Deluxe
  | Premium
  | Ultra
  | Exclusive
deriving Repr, DecidableEq

/-- The `SkinTierUUID` constant object, as an association list from
content-tier UUID to its tier and display-icon URL. -/
def SkinTierUUID : List (String × SkinTier × String) :=
  [ ("12683d76-48d7-84a3-4e09-6985794f0445", (SkinTier.Select,
      "https://media.valorant-api.com/contenttiers/12683d76-48d7-84a3-4e09-6985794f0445/displayicon.png"))
  , ("0cebb8be-46d7-c12a-d306-e9907bfc5a25", (SkinTier.Deluxe,
      "https://media.valorant-api.com/contenttiers/0cebb8be-46d7-c12a-d306-e9907bfc5a25/displayicon.png"))
  , ("60bca009-4182-7998-dee7-b8a2558dc369", (SkinTier.Premium,
      "https://media.valorant-api.com/contenttiers/60bca009-4182-7998-dee7-b8a2558dc369/displayicon.png"))
  , ("411e4a55-4e59-7757-41f0-86a53f101bb5", (SkinTier.Ultra,
      "https://media.valorant-api.com/contenttiers/411e4a55-4e59-7757-41f0-86a53f101bb5/displayicon.png"))
  , ("e046854e-406c-37f4-6607-19a9ba8426fc", (SkinTier.Exclusive,
      "https://media.valorant-api.com/contenttiers/e046854e-406c-37f4-6607-19a9ba8426fc/displayicon.png")) ]

/-- JavaScript property access `SkinTierUUID[uuid]`: `undefined` (`none`)
when the key is absent from the catalog object. -/
def lookupSkinTier (uuid : String) : Option (SkinTier × String) :=
  (SkinTierUUID.find? (fun e => e.1 = uuid)).map (·.2)

/-- The `SkinMeta` type declared in the source (never constructed by
`getOffers`). -/
structure SkinMeta where
  displayName : String
  price : Nat
  tier : SkinTier
  image : String
deriving Repr, DecidableEq

/-- The `offers` component of the object `getOffers` actually returns:
only an `expiry` field — the `items` array its declared type
`StorefrontResponse` promises is absent from the object literal. -/
structure StorefrontOffersOut where
  expiry : Time
deriving Repr, DecidableEq

/-- The `bundle` component of the object `getOffers` actually returns. -/
structure StorefrontBundleOut where
  name : String
  cover : String
  expiry : Time
deriving Repr, DecidableEq

/-- The value `getOffers` actually returns (the object literal at the end
of the method, which omits `offers.items`). -/
structure StorefrontGetOffersOut where
  offers : StorefrontOffersOut
  bundle : StorefrontBundleOut
deriving Repr, DecidableEq

namespace Storefront

/-- Method `Storefront.getOffers`: obtain a bundle from the auth
provider (its outcome is the `authResult` argument; an `AuthErr` thrown
there propagates), GET the raw storefront (`storefront` argument), then
`const offersExpiry = new Date()` (clock read `t1`) and
`const bundleExpiry = new Date()` (clock read `t2`, a second, separate
read), add the respective remaining-seconds via `setSeconds`, and return
the object literal.  No offer identifier is read and no catalog lookup
is performed. -/
def getOffers (authResult : Except AuthErr RiotAuthBundle)
    (storefront : RiotStorefrontResponse) (t1 t2 : Time) :
    Except AuthErr StorefrontGetOffersOut :=
  match authResult with
  | .error e => .error e
  | .ok _bundle =>
    .ok { offers :=
            { expiry := t1 +
                storefront.SkinsPanelLayout.SingleItemOffersRemainingDurationInSeconds * 1000 }
        , bundle :=
            { name := storefront.FeaturedBundle.Bundle.DataAssetID
            , cover := storefront.FeaturedBundle.Bundle.CurrencyID
            , expiry := t2 +
                storefront.FeaturedBundle.BundleRemainingDurationInSeconds * 1000 } }

end Storefront

/-- Replace the 4-tuple of offer identifiers of a raw storefront
response, leaving every other field unchanged. -/
def setSingleItemOffers (sf : RiotStorefrontResponse)
    (ids : String × String × String × String) : RiotStorefrontResponse :=
  { sf with SkinsPanelLayout := { sf.SkinsPanelLayout with SingleItemOffers := ids } }

/-!
Concrete fixtures used to instantiate the theorems below.
-/

/-- Network responses of a fully successful handshake. -/
def okWorld : HandshakeWorld :=
  { setCookie := some ["asid=abc123"]
  , authBody :=
      { error := none
      , response := some
          { parameters := some
              { uri := some "https://playvalorant.com/opt_in#access_token=tok123&id_token=idtok" } } }
  , entitlementsToken := some "ent456"
  , sub := some "puuid-789" }

/-- Handshake responses whose credential-submission body carries an error
indicator. -/
def badCredsWorld : HandshakeWorld :=
  { setCookie := some ["asid=abc123"]
  , authBody := { error := some "auth_failure", response := none }
  , entitlementsToken := some "ent456"
  , sub := some "puuid-789" }

/-- Handshake responses whose bootstrap response carries no `asid`
session cookie. -/
def noCookieWorld : HandshakeWorld :=
  { setCookie := some ["other=1"]
  , authBody := { error := none, response := none }
  , entitlementsToken := none
  , sub := none }

/-- Handshake responses whose credential-submission body has neither an
error indicator nor the expected `response.parameters.uri` redirect
structure. -/
def noRedirectWorld : HandshakeWorld :=
  { setCookie := some ["asid=xyz"]
  , authBody := { error := none, response := none }
  , entitlementsToken := some "ent456"
  , sub := some "puuid-789" }

/-- An already-cached bundle whose expiry (t = 1000 ms) lies in the past
of the call instants used below. -/
def staleBundle : RiotAuthBundle :=
  { riotToken := "tok", entitlementsToken := "ent", puuid := "puuid1", expiry := 1000 }

/-- Provider state holding `staleBundle`; its class-level `expiry` field
is `none`, as in every state the constructor and methods can produce. -/
def staleProvider : PasswordAuthProvider :=
  { username := "u", password := "p", expiry := none, bundle := some staleBundle }

/-- Credential bundle used to authorize fixture storefront calls. -/
def fixtureBundle : RiotAuthBundle :=
  { riotToken := "tok", entitlementsToken := "ent", puuid := "puuid1", expiry := 10 }

/-- Synthetic raw storefront response with four known offer identifiers
and known remaining-seconds counters. -/
def fixtureStorefront : RiotStorefrontResponse :=
  { FeaturedBundle :=
      { Bundle :=
          { ID := "bundle-id", DataAssetID := "asset", CurrencyID := "cur"
          , Items := [], DurationRemainingInSeconds := 100, WholesaleOnly := false }
      , BundleRemainingDurationInSeconds := 7200 }
  , SkinsPanelLayout :=
      { SingleItemOffers := ("id1", "id2", "id3", "id4")
      , SingleItemOffersRemainingDurationInSeconds := 3600 } }

/-- Storefront response whose two remaining-seconds counters are both 0,
exposing the two separate clock reads in `getOffers`. -/
def zeroSecondsStorefront : RiotStorefrontResponse :=
  { FeaturedBundle :=
      { Bundle :=
          { ID := "bundle-id", DataAssetID := "asset", CurrencyID := "cur"
          , Items := [], DurationRemainingInSeconds := 0, WholesaleOnly := false }
      , BundleRemainingDurationInSeconds := 0 }
  , SkinsPanelLayout :=
      { SingleItemOffers := ("id1", "id2", "id3", "id4")
      , SingleItemOffersRemainingDurationInSeconds := 0 } }

/-- An offer identifier absent from the `SkinTierUUID` catalog object. -/
def unknownOfferId : String := "11111111-1111-1111-1111-111111111111"

/-- Bundle fields that a successful handshake can actually produce: each
token passed its truthiness check, so none of the three strings is empty.
(`expiry` is a total `Time` field; its future-ness at store time is a
separate statement.) -/
def fullyPopulated (b : RiotAuthBundle) : Prop :=
  b.riotToken ≠ "" ∧ b.entitlementsToken ≠ "" ∧ b.puuid ≠ ""

/-!
Helper lemmas.
-/

theorem jsTruthy_getD (x : Option String) (h : jsTruthy x = true) : x.getD "" ≠ "" := by
  cases x with
  | none => simp [jsTruthy] at h
  | some s =>
    simp [jsTruthy] at h
    simpa using h

namespace PasswordAuthProvider

theorem getRiotToken_cases (w : HandshakeWorld) :
    (∃ e, getRiotToken w = (.error e, [.bootstrap])) ∨
    (∃ e, getRiotToken w = (.error e, [.bootstrap, .submitCreds])) ∨
    (∃ t, getRiotToken w = (.ok t, [.bootstrap, .submitCreds]) ∧ t ≠ "") := by
  unfold getRiotToken
  split
  · exact .inl ⟨_, rfl⟩
  · split
    · exact .inr (.inl ⟨_, rfl⟩)
    · split
      · exact .inr (.inl ⟨_, rfl⟩)
      · split
        · exact .inr (.inl ⟨_, rfl⟩)
        · split
          · exact .inr (.inl ⟨_, rfl⟩)
          · split
            · exact .inr (.inr ⟨_, rfl, jsTruthy_getD _ (by assumption)⟩)
            · exact .inr (.inl ⟨_, rfl⟩)

theorem getRiotToken_steps_head (w : HandshakeWorld) :
    (getRiotToken w).2.head? = some .bootstrap := by
  rcases getRiotToken_cases w with ⟨e, h⟩ | ⟨e, h⟩ | ⟨t, h, _⟩ <;> rw [h] <;> rfl

theorem getRiotToken_ok (w : HandshakeWorld) (t : String)
    (h : (getRiotToken w).1 = .ok t) :
    (getRiotToken w).2 = [.bootstrap, .submitCreds] ∧ t ≠ "" := by
  rcases getRiotToken_cases w with ⟨e, h2⟩ | ⟨e, h2⟩ | ⟨t2, h2, hne⟩ <;> rw [h2] at h <;>
    simp only at h
  · exact absurd h (by simp)
  · exact absurd h (by simp)
  · obtain rfl : t2 = t := by simpa using h
    exact ⟨by rw [h2], hne⟩

theorem getentitlementsToken_ok (w : HandshakeWorld) (t : String)
    (h : getentitlementsToken w = .ok t) : t ≠ "" := by
  unfold getentitlementsToken at h
  split at h
  · cases h
    exact jsTruthy_getD _ (by assumption)
  · cases h

theorem getPuuid_ok (w : HandshakeWorld) (t : String)
    (h : getPuuid w = .ok t) : t ≠ "" := by
  unfold getPuuid at h
  split at h
  · cases h
    exact jsTruthy_getD _ (by assumption)
  · cases h

theorem runHandshake_cases (st : PasswordAuthProvider) (w : HandshakeWorld) (n1 : Time) :
    (∃ e, (runHandshake st w n1).result = .error e ∧ (runHandshake st w n1).state = st ∧
        (runHandshake st w n1).steps.head? = some .bootstrap) ∨
    (∃ b, runHandshake st w n1 =
        ⟨.ok b, { st with bundle := some b },
          [.bootstrap, .submitCreds, .entitlements, .userinfo]⟩ ∧
      b.expiry = n1 + 55 * 60 * 1000 ∧ fullyPopulated b) := by
  have hhead := getRiotToken_steps_head w
  unfold runHandshake
  rcases hr : getRiotToken w with ⟨r, steps⟩
  rw [hr] at hhead
  cases r with
  | error e => exact .inl ⟨e, rfl, rfl, hhead⟩
  | ok t =>
    obtain ⟨hsteps, htne⟩ := getRiotToken_ok w t (by rw [hr])
    rw [hr] at hsteps
    simp only at hsteps
    subst hsteps
    cases hent : getentitlementsToken w with
    | error e => exact .inl ⟨e, rfl, rfl, rfl⟩
    | ok ent =>
      cases hpu : getPuuid w with
      | error e => exact .inl ⟨e, rfl, rfl, rfl⟩
      | ok pu =>
        exact .inr ⟨_, rfl, rfl,
          htne, getentitlementsToken_ok w ent hent, getPuuid_ok w pu hpu⟩

theorem getAuthBundle_bundle_none (st : PasswordAuthProvider) (n0 : Time)
    (w : HandshakeWorld) (n1 : Time) (h : st.bundle = none) :
    getAuthBundle st n0 w n1 = runHandshake st w n1 := by
  unfold getAuthBundle
  rw [h]

theorem getAuthBundle_cached (st : PasswordAuthProvider) (b : RiotAuthBundle)
    (n0 : Time) (w : HandshakeWorld) (n1 : Time)
    (hexp : st.expiry = none) (hb : st.bundle = some b) :
    getAuthBundle st n0 w n1 = ⟨.ok b, st, []⟩ := by
  unfold getAuthBundle
  rw [hb, hexp]
  rfl

theorem runHandshake_state_expiry (st : PasswordAuthProvider) (w : HandshakeWorld)
    (n1 : Time) : (runHandshake st w n1).state.expiry = st.expiry := by
  rcases runHandshake_cases st w n1 with ⟨e, _, hst, _⟩ | ⟨b, heq, _⟩
  · rw [hst]
  · rw [heq]

theorem getAuthBundle_state_expiry (st : PasswordAuthProvider) (n0 : Time)
    (w : HandshakeWorld) (n1 : Time) :
    (getAuthBundle st n0 w n1).state.expiry = st.expiry := by
  unfold getAuthBundle
  split
  · exact runHandshake_state_expiry st w n1
  · split
    · exact runHandshake_state_expiry st w n1
    · rfl

/-- Every reachable provider state has its class-level `expiry` field
still `undefined`: the constructor initializes nothing into it and no
method ever assigns it. -/
theorem reachable_expiry_none (st : PasswordAuthProvider) (h : Reachable st) :
    st.expiry = none := by
  induction h with
  | init u p => rfl
  | step st n0 w n1 _ ih => rw [getAuthBundle_state_expiry, ih]

theorem getRiotToken_badCreds (w : HandshakeWorld) (c : String)
    (hc : findAsidCookie w.setCookie = some c)
    (he : jsTruthy w.authBody.error = true) :
    getRiotToken w =
      (.error (.authProviderError msgBadCreds), [.bootstrap, .submitCreds]) := by
  unfold getRiotToken
  split
  · simp_all
  · split
    · rfl
    · simp_all

theorem runHandshake_new_bundle (st : PasswordAuthProvider) (w : HandshakeWorld)
    (n1 : Time) (b : RiotAuthBundle)
    (h : (runHandshake st w n1).state.bundle = some b) :
    st.bundle = some b ∨ b.expiry = n1 + 55 * 60 * 1000 := by
  rcases runHandshake_cases st w n1 with ⟨e, _, hst, _⟩ | ⟨b2, heq, hexp, _⟩
  · rw [hst] at h
    exact .inl h
  · rw [heq] at h
    obtain rfl : b2 = b := by simpa using h
    exact .inr hexp

end PasswordAuthProvider

/-!
Claim theorems.
-/

/-- C1: the spec states that a `getBundle()` call made at or past the
cached bundle's `expiresAt` performs a full second handshake and replaces
the prior bundle wholesale.  The code instead tests the never-assigned
class field `this.expiry` (in every reachable runtime state `undefined`,
and `undefined < new Date()` is `false`) rather than `this.bundle.expiry`,
so any state with a cached bundle is a cache hit: the first conjunct shows
that on every cached state (with the `expiry` field `undefined`, as it
always is) the call returns the old bundle, keeps the state and issues
zero network requests, for arbitrary clock values; the remaining conjuncts
evaluate the code on a concretely stale cache (bundle expiry 1000 ms, call
at 2000 ms). -/
theorem c1_stale_bundle_not_refreshed :
    (∀ (u p : String) (b : RiotAuthBundle) (n0 : Time) (w : HandshakeWorld) (n1 : Time),
      PasswordAuthProvider.getAuthBundle ⟨u, p, none, some b⟩ n0 w n1 =
        ⟨.ok b, ⟨u, p, none, some b⟩, []⟩) ∧
    staleBundle.expiry < 2000 ∧
    PasswordAuthProvider.getAuthBundle staleProvider 2000 okWorld 2000 =
      ⟨.ok staleBundle, staleProvider, []⟩ :=
  ⟨fun u p b n0 w n1 =>
    PasswordAuthProvider.getAuthBundle_cached ⟨u, p, none, some b⟩ b n0 w n1 rfl rfl,
   by decide, rfl⟩

/-- C5: whenever the bootstrap step produced an `asid` session cookie and
the credential-submission response body carries an error indicator,
`getAuthBundle` on a fresh provider fails with
`AuthProviderError "Authentication failed, check your credentials"` after
exactly the bootstrap and submission requests — the entitlements and
userinfo requests are never attempted — and that reason is distinct from
every other failure message of the program and from every `TypeError`. -/
theorem c5_bad_credentials_fail_fast (u p : String) (n0 : Time) (w : HandshakeWorld)
    (n1 : Time) (c : String)
    (hc : findAsidCookie w.setCookie = some c)
    (he : jsTruthy w.authBody.error = true) :
    PasswordAuthProvider.getAuthBundle (mkPasswordAuthProvider u p) n0 w n1 =
      ⟨.error (.authProviderError msgBadCreds), mkPasswordAuthProvider u p,
        [.bootstrap, .submitCreds]⟩ ∧
    msgBadCreds ≠ msgCookie ∧ msgBadCreds ≠ msgTokenExtract ∧
    msgBadCreds ≠ msgEntitlements ∧ msgBadCreds ≠ msgPuuid ∧
    (∀ m, AuthErr.authProviderError msgBadCreds ≠ AuthErr.typeError m) := by
  refine ⟨?_, by decide, by decide, by decide, by decide, fun m h => by cases h⟩
  rw [PasswordAuthProvider.getAuthBundle_bundle_none _ _ _ _ rfl]
  unfold PasswordAuthProvider.runHandshake
  rw [PasswordAuthProvider.getRiotToken_badCreds w c hc he]

/-- C5 witness: the theorem instantiated at a concrete world whose
submission body signals `auth_failure`. -/
theorem c5_bad_credentials_fail_fast_witness :
    PasswordAuthProvider.getAuthBundle (mkPasswordAuthProvider "u" "p") 0 badCredsWorld 3 =
      ⟨.error (.authProviderError msgBadCreds), mkPasswordAuthProvider "u" "p",
        [.bootstrap, .submitCreds]⟩ ∧
    msgBadCreds ≠ msgCookie ∧ msgBadCreds ≠ msgTokenExtract ∧
    msgBadCreds ≠ msgEntitlements ∧ msgBadCreds ≠ msgPuuid ∧
    (∀ m, AuthErr.authProviderError msgBadCreds ≠ AuthErr.typeError m) :=
  c5_bad_credentials_fail_fast "u" "p" 0 badCredsWorld 3 "asid=abc123" rfl rfl

/-- C6: whenever a `getAuthBundle` call on a fresh provider runs the
handshake to completion, the returned bundle's `expiry` is exactly
55 minutes (in milliseconds) after the clock instant `n1` read right
after the identity-resolution step completed. -/
theorem c6_expiry_55_minutes (u p : String) (n0 : Time) (w : HandshakeWorld) (n1 : Time)
    (b : RiotAuthBundle)
    (h : (PasswordAuthProvider.getAuthBundle (mkPasswordAuthProvider u p) n0 w n1).result =
      .ok b) :
    b.expiry = n1 + 55 * 60 * 1000 := by
  rw [PasswordAuthProvider.getAuthBundle_bundle_none _ _ _ _ rfl] at h
  rcases PasswordAuthProvider.runHandshake_cases (mkPasswordAuthProvider u p) w n1 with
    ⟨e, he, _, _⟩ | ⟨b2, heq, hexp, _⟩
  · rw [he] at h
    simp at h
  · rw [heq] at h
    obtain rfl : b2 = b := by simpa using h
    exact hexp

/-- C6 witness: on the concrete successful world, the handshake finishing
at instant 7 yields expiry `7 + 55 * 60 * 1000`. -/
theorem c6_expiry_55_minutes_witness :
    (⟨"tok123", "ent456", "puuid-789", 7 + 55 * 60 * 1000⟩ : RiotAuthBundle).expiry =
      7 + 55 * 60 * 1000 :=
  c6_expiry_55_minutes "u" "p" 0 okWorld 7 _ rfl

/-- C7: when a first `getAuthBundle` call on a fresh provider succeeds,
that call performed exactly the four-step handshake, and a second call
made while the bundle is still within its validity window returns the
same bundle with an empty network trace and an unchanged state — one
handshake across the two calls. -/
theorem c7_second_call_cache_hit (u p : String) (n0 : Time) (w : HandshakeWorld)
    (n1 : Time) (b : RiotAuthBundle) (n2 : Time) (w2 : HandshakeWorld) (n3 : Time)
    (h : (PasswordAuthProvider.getAuthBundle (mkPasswordAuthProvider u p) n0 w n1).result =
      .ok b)
    (hwin : n2 < b.expiry) :
    (PasswordAuthProvider.getAuthBundle (mkPasswordAuthProvider u p) n0 w n1).steps =
      [.bootstrap, .submitCreds, .entitlements, .userinfo] ∧
    PasswordAuthProvider.getAuthBundle
        (PasswordAuthProvider.getAuthBundle (mkPasswordAuthProvider u p) n0 w n1).state
        n2 w2 n3 =
      ⟨.ok b,
       (PasswordAuthProvider.getAuthBundle (mkPasswordAuthProvider u p) n0 w n1).state,
       []⟩ := by
  rw [PasswordAuthProvider.getAuthBundle_bundle_none _ _ _ _ rfl] at h ⊢
  rcases PasswordAuthProvider.runHandshake_cases (mkPasswordAuthProvider u p) w n1 with
    ⟨e, he, _, _⟩ | ⟨b2, heq, _, _⟩
  · rw [he] at h
    simp at h
  · rw [heq] at h ⊢
    obtain rfl : b2 = b := by simpa using h
    exact ⟨rfl, PasswordAuthProvider.getAuthBundle_cached _ _ n2 w2 n3 rfl rfl⟩

/-- C7 witness: first call on the successful world, second call against a
world that would fail — no request of it is ever issued. -/
theorem c7_second_call_cache_hit_witness :
    (PasswordAuthProvider.getAuthBundle (mkPasswordAuthProvider "u" "p") 0 okWorld 7).steps =
      [.bootstrap, .submitCreds, .entitlements, .userinfo] ∧
    PasswordAuthProvider.getAuthBundle
        (PasswordAuthProvider.getAuthBundle (mkPasswordAuthProvider "u" "p") 0 okWorld 7).state
        8 noCookieWorld 9 =
      ⟨.ok ⟨"tok123", "ent456", "puuid-789", 7 + 55 * 60 * 1000⟩,
       (PasswordAuthProvider.getAuthBundle (mkPasswordAuthProvider "u" "p") 0 okWorld 7).state,
       []⟩ :=
  c7_second_call_cache_hit "u" "p" 0 okWorld 7 _ 8 noCookieWorld 9 rfl (by decide)

/-- C8: when a `getAuthBundle` call fails at any step (the `expiry` class
field being `undefined`, as in every reachable state), the cached bundle
field is unchanged by the failed call; moreover the cache was necessarily
empty (a populated cache never reaches the handshake, so it never fails),
and every subsequent call on that state starts the handshake again with
the bootstrap request rather than hitting a partial cache. -/
theorem c8_failure_leaves_cache_unchanged (st : PasswordAuthProvider) (n0 : Time)
    (w : HandshakeWorld) (n1 : Time) (e : AuthErr)
    (hexp : st.expiry = none)
    (h : (PasswordAuthProvider.getAuthBundle st n0 w n1).result = .error e) :
    (PasswordAuthProvider.getAuthBundle st n0 w n1).state = st ∧
    st.bundle = none ∧
    (∀ (n2 : Time) (w2 : HandshakeWorld) (n3 : Time),
      ((PasswordAuthProvider.getAuthBundle st n2 w2 n3).steps).head? =
        some .bootstrap) := by
  cases hb : st.bundle with
  | some b =>
    rw [PasswordAuthProvider.getAuthBundle_cached st b n0 w n1 hexp hb] at h
    simp at h
  | none =>
    have hbn : ∀ (n : Time) (w' : HandshakeWorld) (n' : Time),
        PasswordAuthProvider.getAuthBundle st n w' n' =
          PasswordAuthProvider.runHandshake st w' n' :=
      fun n w' n' => PasswordAuthProvider.getAuthBundle_bundle_none st n w' n' hb
    rw [hbn] at h
    refine ⟨?_, rfl, ?_⟩
    · rw [hbn]
      rcases PasswordAuthProvider.runHandshake_cases st w n1 with
        ⟨e2, _, hst, _⟩ | ⟨b2, heq, _, _⟩
      · exact hst
      · rw [heq] at h
        simp at h
    · intro n2 w2 n3
      rw [hbn]
      rcases PasswordAuthProvider.runHandshake_cases st w2 n3 with
        ⟨e2, _, _, hhd⟩ | ⟨b2, heq, _, _⟩
      · exact hhd
      · rw [heq]
        rfl

/-- C8 witness: the theorem instantiated on a fresh provider and a world
whose bootstrap response has no `asid` cookie. -/
theorem c8_failure_leaves_cache_unchanged_witness :
    (PasswordAuthProvider.getAuthBundle (mkPasswordAuthProvider "u" "p") 0 noCookieWorld 0).state =
      mkPasswordAuthProvider "u" "p" ∧
    (mkPasswordAuthProvider "u" "p").bundle = none ∧
    (∀ (n2 : Time) (w2 : HandshakeWorld) (n3 : Time),
      ((PasswordAuthProvider.getAuthBundle (mkPasswordAuthProvider "u" "p") n2 w2 n3).steps).head? =
        some .bootstrap) :=
  c8_failure_leaves_cache_unchanged (mkPasswordAuthProvider "u" "p") 0 noCookieWorld 0
    (.authProviderError msgCookie) rfl rfl

/-- C9: in every reachable provider state the cached bundle is either
absent or fully populated (all three token strings non-empty; the expiry
field is total), and whenever a call stores a new bundle into the cache
its `expiry` lies strictly in the future of the clock instant `n1` at
which it was computed and stored. -/
theorem c9_bundle_all_or_nothing :
    (∀ st, Reachable st →
      st.bundle = none ∨ ∃ b, st.bundle = some b ∧ fullyPopulated b) ∧
    (∀ (st : PasswordAuthProvider) (n0 : Time) (w : HandshakeWorld) (n1 : Time)
        (b : RiotAuthBundle),
      (PasswordAuthProvider.getAuthBundle st n0 w n1).state.bundle = some b →
      st.bundle ≠ some b → n1 < b.expiry) := by
  constructor
  · intro st h
    induction h with
    | init u p => exact .inl rfl
    | step st n0 w n1 hr ih =>
      cases hb : st.bundle with
      | some b =>
        rw [PasswordAuthProvider.getAuthBundle_cached st b n0 w n1
          (PasswordAuthProvider.reachable_expiry_none st hr) hb]
        exact ih
      | none =>
        rw [PasswordAuthProvider.getAuthBundle_bundle_none st n0 w n1 hb]
        rcases PasswordAuthProvider.runHandshake_cases st w n1 with
          ⟨e, _, hst, _⟩ | ⟨b2, heq, _, hfp⟩
        · rw [hst]
          exact ih
        · rw [heq]
          exact .inr ⟨b2, rfl, hfp⟩
  · intro st n0 w n1 b hsb hne
    unfold PasswordAuthProvider.getAuthBundle at hsb
    split at hsb
    · rcases PasswordAuthProvider.runHandshake_new_bundle st w n1 b hsb with h | h
      · exact absurd h hne
      · rw [h]
        exact Nat.lt_add_of_pos_right (by decide)
    · split at hsb
      · rcases PasswordAuthProvider.runHandshake_new_bundle st w n1 b hsb with h | h
        · exact absurd h hne
        · rw [h]
          exact Nat.lt_add_of_pos_right (by decide)
      · exact absurd hsb hne

/-- C9 witness: the invariant at the freshly constructed provider, and
future-ness of the expiry of the bundle stored by a successful call ending
at instant 3. -/
theorem c9_bundle_all_or_nothing_witness :
    ((mkPasswordAuthProvider "u" "p").bundle = none ∨
      ∃ b, (mkPasswordAuthProvider "u" "p").bundle = some b ∧ fullyPopulated b) ∧
    (3 : Time) < (⟨"tok123", "ent456", "puuid-789", 3 + 55 * 60 * 1000⟩ : RiotAuthBundle).expiry :=
  ⟨c9_bundle_all_or_nothing.1 _ (Reachable.init "u" "p"),
   c9_bundle_all_or_nothing.2 (mkPasswordAuthProvider "u" "p") 0 okWorld 3 _ rfl
     (fun hcon => Option.noConfusion hcon)⟩

/-- C10: for a credential-submission response whose body has no error
indicator but also no `response.parameters.uri` structure, `getRiotToken`
fails with a plain `TypeError` from the unguarded access
`data.response.parameters` — not with an `AuthProviderError` — so not
every malformed handshake response surfaces as a typed auth failure. -/
theorem c10_missing_redirect_typeerror :
    PasswordAuthProvider.getRiotToken noRedirectWorld =
      (.error (.typeError msgReadParameters), [.bootstrap, .submitCreds]) ∧
    (∀ m, (AuthErr.typeError msgReadParameters) ≠ AuthErr.authProviderError m) :=
  ⟨rfl, fun _ h => AuthErr.noConfusion h⟩

/-- C2: the spec states that a successful `getOffers()` result carries up
to 4 catalog entries, one per downstream offer identifier, matching a
synthetic fixture field-for-field.  The code returns an `offers` object
containing only an expiry — no catalog entries at all: the first conjunct
shows the result is entirely independent of the 4 offer identifiers, and
the second evaluates the fixture call to its literal items-free value. -/
theorem c2_offers_missing_catalog_entries :
    (∀ (authResult : Except AuthErr RiotAuthBundle) (sf : RiotStorefrontResponse)
        (t1 t2 : Time) (ids1 ids2 : String × String × String × String),
      Storefront.getOffers authResult (setSingleItemOffers sf ids1) t1 t2 =
        Storefront.getOffers authResult (setSingleItemOffers sf ids2) t1 t2) ∧
    Storefront.getOffers (.ok fixtureBundle) fixtureStorefront 0 0 =
      .ok ⟨⟨3600000⟩, ⟨"asset", "cur", 7200000⟩⟩ := by
  refine ⟨fun authResult sf t1 t2 ids1 ids2 => ?_, rfl⟩
  cases authResult <;> rfl

/-- C3: the spec states that an offer identifier absent from the catalog
snapshot makes `getOffers()` fail with an `UpstreamError`.  The code
performs no catalog lookup at all (no `UpstreamError`/`NotFoundError`
exists in it): with an identifier absent from `SkinTierUUID` the call
still succeeds, returning the same items-free value. -/
theorem c3_unknown_id_no_upstream_error :
    lookupSkinTier unknownOfferId = none ∧
    Storefront.getOffers (.ok fixtureBundle)
        (setSingleItemOffers fixtureStorefront (unknownOfferId, "id2", "id3", "id4")) 0 0 =
      .ok ⟨⟨3600000⟩, ⟨"asset", "cur", 7200000⟩⟩ :=
  ⟨by decide, rfl⟩

/-- C4 counterexample: the claim that a single instant `T` captured once
underlies both expiries fails on the code, which reads the clock once per
expiry.  With both remaining-seconds counters 0 and the two reads at 0 ms
and 1000 ms, no `T` satisfies both equations. -/
theorem c4_counterexample_two_clock_reads :
    ¬ ∃ T : Time, ∃ out : StorefrontGetOffersOut,
        Storefront.getOffers (.ok fixtureBundle) zeroSecondsStorefront 0 1000 = .ok out ∧
        out.offers.expiry =
          T + zeroSecondsStorefront.SkinsPanelLayout.SingleItemOffersRemainingDurationInSeconds * 1000 ∧
        out.bundle.expiry =
          T + zeroSecondsStorefront.FeaturedBundle.BundleRemainingDurationInSeconds * 1000 := by
  rintro ⟨T, out, hout, h1, h2⟩
  have h0 : Storefront.getOffers (.ok fixtureBundle) zeroSecondsStorefront 0 1000 =
      .ok (⟨⟨0⟩, ⟨"asset", "cur", 1000⟩⟩ : StorefrontGetOffersOut) := rfl
  rw [h0] at hout
  obtain rfl : (⟨⟨0⟩, ⟨"asset", "cur", 1000⟩⟩ : StorefrontGetOffersOut) = out := by
    simpa using hout
  have e1 : (0 : Nat) = T + 0 * 1000 := h1
  have e2 : (1000 : Nat) = T + 0 * 1000 := h2
  omega

/-- C4 amended: each expiry of a successful `getOffers()` result is an
absolute timestamp equal to its own clock read plus the respective
remaining-seconds value — `offersExpiry = t1 + seconds * 1000` for the
first read `t1` (so with 3600 remaining seconds it is `t1 + 3600 s`
exactly) and `bundleExpiry = t2 + seconds * 1000` for the second read
`t2`; the two expiries are relative to one shared instant only when the
two reads coincide. -/
theorem c4_amended_expiries_per_read (authResult : Except AuthErr RiotAuthBundle)
    (sf : RiotStorefrontResponse) (t1 t2 : Time) (out : StorefrontGetOffersOut)
    (h : Storefront.getOffers authResult sf t1 t2 = .ok out) :
    out.offers.expiry =
      t1 + sf.SkinsPanelLayout.SingleItemOffersRemainingDurationInSeconds * 1000 ∧
    out.bundle.expiry =
      t2 + sf.FeaturedBundle.BundleRemainingDurationInSeconds * 1000 := by
  cases authResult with
  | error e =>
    simp only [Storefront.getOffers] at h
    exact Except.noConfusion h
  | ok b =>
    simp only [Storefront.getOffers, Except.ok.injEq] at h
    subst h
    exact ⟨rfl, rfl⟩

/-- C4 witness: the amended statement instantiated at the fixture with
both clock reads at 5 ms, where `offersExpiry = 5 + 3600 * 1000`. -/
theorem c4_amended_expiries_per_read_witness :
    (⟨⟨3600005⟩, ⟨"asset", "cur", 7200005⟩⟩ : StorefrontGetOffersOut).offers.expiry =
      5 + fixtureStorefront.SkinsPanelLayout.SingleItemOffersRemainingDurationInSeconds * 1000 ∧
    (⟨⟨3600005⟩, ⟨"asset", "cur", 7200005⟩⟩ : StorefrontGetOffersOut).bundle.expiry =
      5 + fixtureStorefront.FeaturedBundle.BundleRemainingDurationInSeconds * 1000 :=
  c4_amended_expiries_per_read (.ok fixtureBundle) fixtureStorefront 5 5
    ⟨⟨3600005⟩, ⟨"asset", "cur", 7200005⟩⟩ rfl
